import Mathlib

/-!
# Verification of the solar-panel drawing / estimation engine

Shallow embedding, in Lean 4, of the core logic of the `solar-pannel`
repository: the interactive drawing state machine of `Map.tsx` (vertex
clicks, snap-to-close, undo/redo history, cleanup), the zone-metrics
calculator, the total-metrics / financial pipeline, the hole-subtraction
area computation (both the `Map.tsx` and the `part_010` revisions), the
financial projection of `AnalysisResults.tsx`, and the electricity-rate
fallback logic of `electricityRates.ts`.

JavaScript numbers are modelled as rationals (`ℚ`); the external
collaborators (turf.js geodesic area, the Google Maps spherical distance,
the geocoder and the electricity-price HTTP API) are modelled as explicit
parameters or environment records, since they live outside the repository.
`undefined` results of fallible code are modelled with `Option`.
-/

namespace SolarPanel

/-- A geographic point (latitude, longitude), as held in `drawnPointsRef`. -/
abbrev Pt := ℚ × ℚ

/-- An entry of the `polygons` React state in `Map.tsx`: the completed ring,
its turf area and the pitch recorded with it. -/
structure CompletedPoly where
  points : List Pt
  area : ℚ
  pitch : ℚ
deriving DecidableEq

/-- The mutable drawing refs of the `Map` component: `polygons`,
`drawnPointsRef`, `drawingHistoryRef`, `currentHistoryIndexRef`,
`holesRef` and `currentHoleRef`. -/
structure DrawingState where
  polygons : List CompletedPoly
  drawnPoints : List Pt
  history : List (List Pt)
  histIndex : ℤ
  holes : List (List Pt)
  currentHole : List Pt
deriving DecidableEq

/-- Initial values of the refs: empty arrays, history index `-1`. -/
def initDrawingState : DrawingState :=
  { polygons := [], drawnPoints := [], history := [], histIndex := -1,
    holes := [], currentHole := [] }

/-- `addToHistory` (Map.tsx 464-471): truncate the redo tail with
`slice(0, nextIndex)`, push a snapshot of the points, advance the index. -/
def addToHistory (s : DrawingState) (points : List Pt) : DrawingState :=
  let nextIndex := s.histIndex + 1
  { s with history := s.history.take nextIndex.toNat ++ [points],
           histIndex := nextIndex }

/-- The vertex-adding branch of the map click listener (Map.tsx 626-627):
append the clicked point to `drawnPointsRef` and push the new snapshot. -/
def addVertexClick (s : DrawingState) (p : Pt) : DrawingState :=
  let s' := { s with drawnPoints := s.drawnPoints ++ [p] }
  addToHistory s' s'.drawnPoints

/-- A sequence of vertex-addition clicks. -/
def addClicks (s : DrawingState) (ps : List Pt) : DrawingState :=
  ps.foldl addVertexClick s

/-- `handleUndo` (Map.tsx 473-481): only acts when the index is `> 0`;
moves the index back one and restores that snapshot as `drawnPointsRef`. -/
def handleUndo (s : DrawingState) : DrawingState :=
  if 0 < s.histIndex then
    let i := s.histIndex - 1
    { s with histIndex := i, drawnPoints := s.history.getD i.toNat [] }
  else s

/-- `handleRedo` (Map.tsx 483-491): only acts when the index is below
`history.length - 1`; moves forward and restores that snapshot. -/
def handleRedo (s : DrawingState) : DrawingState :=
  if s.histIndex < (s.history.length : ℤ) - 1 then
    let i := s.histIndex + 1
    { s with histIndex := i, drawnPoints := s.history.getD i.toNat [] }
  else s

/-- Per-segment statistics (`stats` of a roof segment): the 9-bucket
sunshine quantiles (index 8 is the one the code reads) and the area. -/
structure SegmentStats where
  areaMeters2 : ℚ
  sunshineQuantiles : List ℚ
deriving DecidableEq

/-- An entry of `solarPotential.roofSegmentStats`. -/
structure RoofSegment where
  pitchDegrees : ℚ
  azimuthDegrees : ℚ
  stats : SegmentStats
deriving DecidableEq

/-- The fields of `buildingInsights.solarPotential` that the estimation
code reads. -/
structure SolarPotential where
  maxArrayAreaMeters2 : ℚ
  maxArrayAnnualEnergyKwh : ℚ
  maxSunshineHoursPerYear : ℚ
  carbonOffsetFactorKgPerKwh : ℚ
  roofSegmentStats : List RoofSegment
deriving DecidableEq

/-- The ring-closing step used by `completePolygon` / `updatePolygon`:
if the first point differs from the last (per `isLatLngEqual`), the first
point is appended at the end. -/
def closeRing (pts : List Pt) : List Pt :=
  match pts.head?, pts.getLast? with
  | some f, some l => if f = l then pts else pts ++ [f]
  | _, _ => pts

/-- The pitch read for a completed polygon (Map.tsx 837-838):
`segments.length > 0 ? segments[0].pitchDegrees : 0`. -/
def firstSegmentPitch (segs : List RoofSegment) : ℚ :=
  match segs with
  | [] => 0
  | seg :: _ => seg.pitchDegrees

/-- `completePolygon` (Map.tsx 819-874), state part: guard on `< 3`
points, close the ring at vertex 0, compute the turf area of the closed
ring (`areaFn` stands for turf.js, an external collaborator), append the
completed polygon to the `polygons` state, and reset `drawnPointsRef`. -/
def completePolygon (areaFn : List Pt → ℚ) (segs : List RoofSegment)
    (s : DrawingState) : DrawingState :=
  if s.drawnPoints.length < 3 then s
  else
    let ring := closeRing s.drawnPoints
    let area := areaFn ring
    let pitch := firstSegmentPitch segs
    { s with polygons := s.polygons ++ [⟨ring, area, pitch⟩],
             drawnPoints := [] }

/-- The `measurementMode` branch of the map click listener
(Map.tsx 601-627): with more than 2 points and the click within 2 meters
of vertex 0 (`dist` stands for the Google Maps spherical distance, an
external collaborator), the polygon is completed and the click discarded;
otherwise the vertex is appended and a history snapshot pushed. -/
def clickMeasurement (dist : Pt → Pt → ℚ) (areaFn : List Pt → ℚ)
    (segs : List RoofSegment) (s : DrawingState) (p : Pt) : DrawingState :=
  if 2 < s.drawnPoints.length ∧ dist s.drawnPoints.headI p < 2 then
    completePolygon areaFn segs s
  else
    addVertexClick s p

/-- The `reventeInfo` / `autoconsoInfo` sub-objects published by the map. -/
structure ScenarioInfo where
  revenus : ℚ
  revenusNets : ℚ
  roi : ℚ
deriving DecidableEq, Inhabited

/-- The technical-info object passed to `onTechnicalInfoUpdate` by
`cleanup` and `updateTechnicalAnalysis`. -/
structure TechnicalInfo where
  area : ℚ
  usableArea : ℚ
  numberOfPanels : ℤ
  peakPower : ℚ
  estimatedEnergy : ℚ
  avgPitch : ℚ
  reventeInfo : ScenarioInfo
  autoconsoInfo : ScenarioInfo
  installationCost : ℚ
  maintenanceCost : ℚ
deriving DecidableEq

/-- The all-zero technical-info literal (Map.tsx 711-730). -/
def zeroTechInfo : TechnicalInfo :=
  { area := 0, usableArea := 0, numberOfPanels := 0, peakPower := 0,
    estimatedEnergy := 0, avgPitch := 0,
    reventeInfo := { revenus := 0, revenusNets := 0, roi := 0 },
    autoconsoInfo := { revenus := 0, revenusNets := 0, roi := 0 },
    installationCost := 0, maintenanceCost := 0 }

/-- `cleanup` (Map.tsx 654-737), state part: empties every drawing ref
(polygons, drawn points, holes, current hole), resets the history to `[]`
with index `-1`, and emits the all-zero technical info plus a `null`
custom area to the registered callbacks (returned as the second and third
components). -/
def cleanup (_s : DrawingState) : DrawingState × TechnicalInfo × Option ℚ :=
  ({ polygons := [], drawnPoints := [], history := [], histIndex := -1,
     holes := [], currentHole := [] },
   zeroTechInfo, none)

/-- The object returned by `calculateZoneMetrics`. -/
structure ZoneMetrics where
  usableArea : ℚ
  numberOfPanels : ℤ
  peakPower : ℚ
  estimatedEnergy : ℚ
  efficiencyFactor : ℚ
deriving DecidableEq

/-- `s.stats.sunshineQuantiles[8]` as read by `calculateZoneMetrics`. -/
def quantile8 (s : RoofSegment) : ℚ :=
  s.stats.sunshineQuantiles.getD 8 0

/-- The `reduce` picking the optimal segment (Map.tsx 203-206):
`current.q8 > best.q8 ? current : best` with `segments[0]` as initial
accumulator (only reached with a nonempty list). -/
def optimalSegment (segs : List RoofSegment) : Option RoofSegment :=
  match segs with
  | [] => none
  | h :: t =>
    some (t.foldl (fun best cur =>
      if quantile8 best < quantile8 cur then cur else best) h)

/-- `calculateZoneMetrics` (Map.tsx 164-228). `none` models an absent
`solarPotential`, on which the all-zero metrics are returned. Constants:
panel 1.7m x 1.0m, 400 W per panel, 90% utilization; efficiency factor is
the ratio of the matching segment's quantile 8 to the optimal segment's,
defaulting to 0.85 without a match; energy is
`maxSunshineHoursPerYear * peakPower * efficiencyFactor`. -/
def calculateZoneMetrics (sp : Option SolarPotential) (area pitch : ℚ) :
    ZoneMetrics :=
  match sp with
  | none =>
    { usableArea := 0, numberOfPanels := 0, peakPower := 0,
      estimatedEnergy := 0, efficiencyFactor := 0 }
  | some sp =>
    let panelArea : ℚ := 17/10 * 1
    let panelPower : ℚ := 400
    let utilizationRate : ℚ := 9/10
    let usableArea := area * utilizationRate
    let numberOfPanels : ℤ := ⌊usableArea / panelArea⌋
    let peakPower : ℚ := (numberOfPanels : ℚ) * panelPower / 1000
    let matching := sp.roofSegmentStats.find?
      (fun s => |s.pitchDegrees - pitch| < 5)
    let efficiencyFactor : ℚ :=
      match matching with
      | none => 85/100
      | some m =>
        match optimalSegment sp.roofSegmentStats with
        | some o => quantile8 m / quantile8 o
        | none => 85/100
    let maxEnergy := sp.maxSunshineHoursPerYear * peakPower
    let estimatedEnergy := maxEnergy * efficiencyFactor
    { usableArea := usableArea, numberOfPanels := numberOfPanels,
      peakPower := peakPower, estimatedEnergy := estimatedEnergy,
      efficiencyFactor := efficiencyFactor }

/-- The summed area of the exclusion holes in `updatePolygon` (Map.tsx
992-1002 and part_010 892-904): holes with fewer than 3 points are
skipped, each other hole is closed and measured with turf (`areaFn`). -/
def excludedAreaSum (areaFn : List Pt → ℚ) (holes : List (List Pt)) : ℚ :=
  holes.foldl
    (fun acc hole =>
      if 3 ≤ hole.length then acc + areaFn (closeRing hole) else acc) 0

/-- The net area of `updatePolygon` in the `Map.tsx` revision (lines
1004-1005): `finalArea = totalArea - excludedArea`, with no clamping. -/
def finalAreaMapRevision (areaFn : List Pt → ℚ) (main : List Pt)
    (holes : List (List Pt)) : ℚ :=
  areaFn (closeRing main) - excludedAreaSum areaFn holes

/-- The net area of `updatePolygon` in the `part_010` revision (line 907):
`finalArea = Math.max(0, mainArea - excludedArea)`. -/
def finalAreaPart010 (areaFn : List Pt → ℚ) (main : List Pt)
    (holes : List (List Pt)) : ℚ :=
  max 0 (areaFn (closeRing main) - excludedAreaSum areaFn holes)

/-- The energy estimate of `updateTotalMetrics` (Map.tsx 1101-1104):
the vendor's `maxArrayAnnualEnergyKwh` scaled by the ratio of the total
drawn area to `maxArrayAreaMeters2`, clamped below at 0. -/
def energyFromArea (sp : SolarPotential) (totalArea : ℚ) : ℚ :=
  max 0 (sp.maxArrayAnnualEnergyKwh * (totalArea / sp.maxArrayAreaMeters2))

/-- The per-scenario payback computed by `updateTotalMetrics`
(Map.tsx 1138 and 1144): the final cost divided by the net yearly
revenue when that revenue is positive, else 0. -/
def scenarioRoi (finalCost revenusNets : ℚ) : ℚ :=
  if 0 < revenusNets then max 0 (finalCost / revenusNets) else 0

/-- The object published by `updateTotalMetrics` (Map.tsx 1154-1180). -/
structure UpdateInfo where
  area : ℚ
  usableArea : ℚ
  numberOfPanels : ℤ
  peakPower : ℚ
  estimatedEnergy : ℚ
  energyPerSquareMeter : ℚ
  energyPerPanel : ℚ
  monthlyEnergy : ℚ
  avgPitch : ℚ
  reventeInfo : ScenarioInfo
  autoconsoInfo : ScenarioInfo
  installationCost : ℚ
  aideAmount : ℚ
  finalCost : ℚ
  maintenanceCost : ℚ
  beneficeNet25ans : ℚ
  co2Savings : ℚ
deriving DecidableEq, Inhabited

/-- `updateTotalMetrics` (Map.tsx 1059-1196). Returns `none` when
`solarPotential` is absent (the early `return`). `price` stands for the
awaited `getLatestElectricityPrice()` (external collaborator). With no
drawn polygons the building data is used: `maxArrayAreaMeters2` as the
total area and the first roof segment's pitch (the source reads
`roofSegmentStats[0]` unguarded and would throw on an empty list; the
theorems below only use it with a nonempty list). -/
def updateTotalMetrics (sp : Option SolarPotential) (price : ℚ)
    (polys : List CompletedPoly) : Option UpdateInfo :=
  match sp with
  | none => none
  | some sp =>
    let totalArea : ℚ :=
      if polys ≠ [] then
        polys.foldl (fun acc p => if 0 < p.area then acc + p.area else acc) 0
      else sp.maxArrayAreaMeters2
    let weightedPitch : ℚ :=
      if polys ≠ [] then
        polys.foldl
          (fun acc p => if 0 < p.area then acc + p.pitch * p.area else acc) 0
      else firstSegmentPitch sp.roofSegmentStats * sp.maxArrayAreaMeters2
    let avgPitch := if 0 < totalArea then weightedPitch / totalArea else 0
    let usableArea := max 0 (totalArea * (9/10))
    let panelArea : ℚ := 17/10 * 1
    let numberOfPanels : ℤ := max 0 ⌊usableArea / panelArea⌋
    let peakPower : ℚ := max 0 ((numberOfPanels : ℚ) * (4/10))
    let estimatedEnergy := energyFromArea sp totalArea
    let energyPerSquareMeter :=
      if 0 < totalArea then estimatedEnergy / totalArea else 0
    let energyPerPanel :=
      if 0 < numberOfPanels then estimatedEnergy / (numberOfPanels : ℚ) else 0
    let monthlyEnergy := estimatedEnergy / 12
    let installationCostPerKw : ℚ := 1500
    let maintenanceCostPerYear := max 0 (peakPower * 20)
    let installationCost := max 0 (peakPower * installationCostPerKw)
    let aideTaux : ℚ := 15/100
    let aideAmount := installationCost * aideTaux
    let finalCost := installationCost - aideAmount
    let prixRevente := max 0 (price * (60/100))
    let revenusRevente := max 0 (estimatedEnergy * prixRevente)
    let revenusNetsRevente := max 0 (revenusRevente - maintenanceCostPerYear)
    let roiRevente := scenarioRoi finalCost revenusNetsRevente
    let prixAutoconso : ℚ := 34223/100000
    let revenusAutoconsommation := max 0 (estimatedEnergy * prixAutoconso)
    let revenusNetsAutoconsommation :=
      max 0 (revenusAutoconsommation - maintenanceCostPerYear)
    let roiAutoconsommation := scenarioRoi finalCost revenusNetsAutoconsommation
    let co2Factor := sp.carbonOffsetFactorKgPerKwh / 1000
    let co2Savings := estimatedEnergy * co2Factor
    let beneficeNet25ans :=
      max 0 (revenusNetsAutoconsommation * 25 - finalCost)
    some
      { area := totalArea, usableArea := usableArea,
        numberOfPanels := numberOfPanels, peakPower := peakPower,
        estimatedEnergy := estimatedEnergy,
        energyPerSquareMeter := energyPerSquareMeter,
        energyPerPanel := energyPerPanel, monthlyEnergy := monthlyEnergy,
        avgPitch := avgPitch,
        reventeInfo :=
          { revenus := revenusRevente, revenusNets := revenusNetsRevente,
            roi := roiRevente },
        autoconsoInfo :=
          { revenus := revenusAutoconsommation,
            revenusNets := revenusNetsAutoconsommation,
            roi := roiAutoconsommation },
        installationCost := installationCost, aideAmount := aideAmount,
        finalCost := finalCost, maintenanceCost := maintenanceCostPerYear,
        beneficeNet25ans := beneficeNet25ans, co2Savings := co2Savings }

/-- `calculatePrimeALaTransition` (AnalysisResults.tsx 240-246): the
tiered one-time incentive by power bracket. -/
def calculatePrimeALaTransition (power : ℚ) : ℚ :=
  if power ≤ 3 then 2200
  else if power ≤ 9 then 1800
  else if power ≤ 36 then 1000
  else 800

/-- `baseInstallationCost` (AnalysisResults.tsx 256):
`max(0, 8000 + power * 1300)`. -/
def baseInstallationCost (power : ℚ) : ℚ :=
  max 0 (8000 + power * 1300)

/-- The installation cost after all incentives (AnalysisResults.tsx
249-261): base cost minus the transition incentive, the capped tax
credit, the VAT reduction and the capped regional bonus, clamped at 0. -/
def installationCostAfterIncentives (power : ℚ) : ℚ :=
  let creditImpot := min (power * 450) 2400
  let regionalBonus := min (power * 200) 1000
  let tvaReduction :=
    max 0 (baseInstallationCost power * (20/100 - 55/1000))
  max 0 (baseInstallationCost power
    - max 0 (calculatePrimeALaTransition power)
    - creditImpot - tvaReduction - regionalBonus)

/-- `yearlyMaintenanceCost` (AnalysisResults.tsx 262). -/
def yearlyMaintenanceCost (power : ℚ) : ℚ := max 0 (power * 20)

/-- `yearlyRevenue` (AnalysisResults.tsx 265-268): production times
price, capped at 25000 euros/year and clamped at 0. -/
def yearlyRevenue (production price : ℚ) : ℚ :=
  max 0 (min (production * price) 25000)

/-- The simple payback period computed inside `calculateFinancials`
(AnalysisResults.tsx 299-300, identically part_006 159-163): the
installation cost after incentives divided by the net yearly profit when
the profit is positive, else the 25-year analysis period. -/
def simplePaybackYears (installCost maintenance revenue : ℚ) : ℚ :=
  let yearlyProfit := revenue - maintenance
  if 0 < yearlyProfit then installCost / yearlyProfit else 25

/-- The `ROI_YEARS` actually returned by `calculateFinancials` in
AnalysisResults.tsx (lines 303-308): the simple payback divided by
`1 + inflation - degradation` and clamped to the range 5..25 years. -/
def roiYearsAnalysisResults (installCost maintenance revenue : ℚ) : ℚ :=
  let adjusted :=
    simplePaybackYears installCost maintenance revenue
      / (1 + 3/100 - 5/1000)
  min 25 (max 5 adjusted)

/-- The static fallback table of `electricityRates.ts` (first revision,
lines 7-15), in euros/kWh; lookup of an unknown country code gives
`none`, modelling JavaScript `undefined`. -/
def FALLBACK_RATES : List (String × ℚ) :=
  [("FR", 217/1000), ("DE", 379/1000), ("ES", 189/1000), ("IT", 259/1000),
   ("GB", 278/1000), ("NL", 315/1000), ("BE", 289/1000)]

/-- `FALLBACK_RATES[countryCode]`. -/
def lookupRate (cc : String) : Option ℚ := FALLBACK_RATES.lookup cc

/-- The possible outcomes of the `fetch` to the electricity-price API
(an external collaborator): a rejected promise (network error), a
non-2xx response (`response.ok` false), or a parsed JSON payload with
its `success` flag and wholesale price in euros/MWh. -/
inductive FetchOutcome where
  | throwsError : FetchOutcome
  | httpError : FetchOutcome
  | payload (success : Bool) (wholesalePrice : ℚ) : FetchOutcome
deriving DecidableEq

/-- The environment of one `getCurrentElectricityRate` call: the country
code resolved by `getCountryFromAddress` (`none` for null) and the fetch
outcome. -/
structure RateEnv where
  countryCode : Option String
  fetchOutcome : FetchOutcome
deriving DecidableEq

/-- `getCurrentElectricityRate` (electricityRates.ts 29-87), as a pure
function of its environment. A `none` result models returning
JavaScript `undefined`. Null country code: the France rate. HTTP error
or unsuccessful payload: `FALLBACK_RATES[cc] || FALLBACK_RATES.FR`.
Successful payload: wholesale price / 1000 times the 3.5 retail margin,
falling back when outside the 0.10..0.50 sanity range. A thrown fetch
lands in the `catch` block, which returns
`countryCode ? FALLBACK_RATES[countryCode] : FALLBACK_RATES.FR` with no
France default for an unknown code. -/
def getCurrentElectricityRate (env : RateEnv) : Option ℚ :=
  match env.countryCode with
  | none => lookupRate "FR"
  | some cc =>
    match env.fetchOutcome with
    | .throwsError => lookupRate cc
    | .httpError => some ((lookupRate cc).getD (217/1000))
    | .payload success wholesalePrice =>
      if success = false then some ((lookupRate cc).getD (217/1000))
      else
        let rateInKwh := wholesalePrice / 1000 * (7/2)
        if rateInKwh < 1/10 ∨ 1/2 < rateInKwh then
          some ((lookupRate cc).getD (217/1000))
        else some rateInKwh

/-- A concrete drawing state used to exercise the snap-to-close branch:
three vertices of a right triangle, no holes, empty history. -/
def snapState : DrawingState :=
  { polygons := [],
    drawnPoints := [((0:ℚ),(0:ℚ)), ((4:ℚ),(0:ℚ)), ((4:ℚ),(4:ℚ))],
    history := [], histIndex := -1, holes := [], currentHole := [] }

/-- A concrete instantiation of the external spherical-distance
collaborator for which every click is within tolerance. -/
def zeroDist : Pt → Pt → ℚ := fun _ _ => 0

/-- A concrete instantiation of the external turf-area collaborator. -/
def constArea12 : List Pt → ℚ := fun _ => 12

/-! ## Helper lemmas -/

/-- The hole-area accumulation unfolded to an explicit sum: the holes
with fewer than 3 points contribute nothing, the others contribute the
turf area of their closed ring. -/
theorem excludedAreaSum_eq_sum (areaFn : List Pt → ℚ)
    (holes : List (List Pt)) :
    excludedAreaSum areaFn holes =
      ((holes.filter (fun h => 3 ≤ h.length)).map
        (fun h => areaFn (closeRing h))).sum := by
  have key : ∀ (l : List (List Pt)) (a : ℚ),
      l.foldl (fun acc hole =>
        if 3 ≤ hole.length then acc + areaFn (closeRing hole) else acc) a =
      a + ((l.filter (fun h => 3 ≤ h.length)).map
        (fun h => areaFn (closeRing h))).sum := by
    intro l
    induction l with
    | nil => intro a; simp
    | cons h t ih =>
      intro a
      by_cases hh : 3 ≤ h.length
      · simp [List.foldl_cons, hh, ih, add_assoc]
      · simp [List.foldl_cons, hh, ih]
  simpa using key holes 0

/-! ## Claim theorems -/

/-- C2, counterexample: in the `Map.tsx` revision of `updatePolygon`
the net area is the raw difference, with no clamping. Instantiating the
external turf area (here: 10 m2 for the main triangle's ring, 25 m2 for
any other ring, a configuration realised by an exclusion hole larger
than the main polygon — the code never validates holes geometrically),
the net area is -15, which is negative and differs from the claimed
`max 0 (area main - sum of hole areas) = 0`. -/
theorem netArea_negative_counterexample :
    finalAreaMapRevision
      (fun ring => if ring.headI = ((0:ℚ),(0:ℚ)) then 10 else 25)
      [((0:ℚ),(0:ℚ)), ((0:ℚ),(1:ℚ)), ((1:ℚ),(0:ℚ))]
      [[((10:ℚ),(10:ℚ)), ((10:ℚ),(12:ℚ)), ((12:ℚ),(10:ℚ))]] = -15 ∧
    ¬ (0 : ℚ) ≤ -15 ∧
    (-15 : ℚ) ≠ max 0 (10 - 25) := by
  refine ⟨?_, by norm_num, ?_⟩
  · norm_num [finalAreaMapRevision, excludedAreaSum, closeRing, Prod.ext_iff]
  · have : max (0:ℚ) (10 - 25) = 0 := by
      rw [max_eq_left]; norm_num
    rw [this]; norm_num

/-- C2, amended: the `part_010` revision of `updatePolygon` computes the
net area as `max(0, area(main) - sum of hole areas)` (degenerate holes of
fewer than 3 points excluded), so it is never negative; the `Map.tsx`
revision computes the raw difference with no clamping. -/
theorem netArea_amended (areaFn : List Pt → ℚ) (main : List Pt)
    (holes : List (List Pt)) :
    finalAreaPart010 areaFn main holes =
      max 0 (areaFn (closeRing main) -
        ((holes.filter (fun h => 3 ≤ h.length)).map
          (fun h => areaFn (closeRing h))).sum) ∧
    0 ≤ finalAreaPart010 areaFn main holes ∧
    finalAreaMapRevision areaFn main holes =
      areaFn (closeRing main) -
        ((holes.filter (fun h => 3 ≤ h.length)).map
          (fun h => areaFn (closeRing h))).sum := by
  refine ⟨?_, le_max_left _ _, ?_⟩
  · rw [finalAreaPart010, excludedAreaSum_eq_sum]
  · rw [finalAreaMapRevision, excludedAreaSum_eq_sum]

/-- C4: for a present `solarPotential`, the zone metrics satisfy
`usableArea = area * 0.9`,
`numberOfPanels = floor(usableArea / (1.7 * 1.0))` and
`peakPower = numberOfPanels * 400 / 1000`. -/
theorem zoneMetrics_formulas (sp : SolarPotential) (area pitch : ℚ)
    (h : 0 ≤ area) :
    (calculateZoneMetrics (some sp) area pitch).usableArea =
      area * (9/10) ∧
    (calculateZoneMetrics (some sp) area pitch).numberOfPanels =
      ⌊area * (9/10) / (17/10 * 1)⌋ ∧
    (calculateZoneMetrics (some sp) area pitch).peakPower =
      ((calculateZoneMetrics (some sp) area pitch).numberOfPanels : ℚ)
        * 400 / 1000 :=
  ⟨rfl, rfl, rfl⟩

/-- C4 witness: the formulas evaluated on a 100 m2 zone of a one-segment
roof (floor(100 * 0.9 / 1.7) = 52 panels, 20.8 kWc). -/
theorem zoneMetrics_formulas_witness :
    (0:ℚ) ≤ 100 ∧
    (calculateZoneMetrics
      (some ⟨100, 5000, 1000, 400, [⟨30, 180, ⟨50, []⟩⟩]⟩) 100 30).usableArea
        = 100 * (9/10) ∧
    (calculateZoneMetrics
      (some ⟨100, 5000, 1000, 400, [⟨30, 180, ⟨50, []⟩⟩]⟩) 100
        30).numberOfPanels = ⌊(100:ℚ) * (9/10) / (17/10 * 1)⌋ ∧
    (calculateZoneMetrics
      (some ⟨100, 5000, 1000, 400, [⟨30, 180, ⟨50, []⟩⟩]⟩) 100 30).peakPower =
      ((calculateZoneMetrics
        (some ⟨100, 5000, 1000, 400, [⟨30, 180, ⟨50, []⟩⟩]⟩) 100
          30).numberOfPanels : ℚ) * 400 / 1000 := by
  have h := zoneMetrics_formulas ⟨100, 5000, 1000, 400, [⟨30, 180, ⟨50, []⟩⟩]⟩
    100 30 (by norm_num)
  exact ⟨by norm_num, h.1, h.2.1, h.2.2⟩

/-- C6: the zone-metrics calculator is a total function; with the
solar-potential data entirely absent it returns the all-zero metrics, and
with data present but no roof segment within 5 degrees of the input pitch
the efficiency factor defaults to 0.85. -/
theorem zoneMetrics_defaults :
    (∀ area pitch : ℚ,
      calculateZoneMetrics none area pitch =
        { usableArea := 0, numberOfPanels := 0, peakPower := 0,
          estimatedEnergy := 0, efficiencyFactor := 0 }) ∧
    (∀ (sp : SolarPotential) (area pitch : ℚ),
      (∀ s ∈ sp.roofSegmentStats, 5 ≤ |s.pitchDegrees - pitch|) →
      (calculateZoneMetrics (some sp) area pitch).efficiencyFactor =
        85/100) := by
  constructor
  · intro area pitch; rfl
  · intro sp area pitch h
    have hf : sp.roofSegmentStats.find?
        (fun s => |s.pitchDegrees - pitch| < 5) = none := by
      rw [List.find?_eq_none]
      intro x hx
      simpa using not_lt.mpr (h x hx)
    simp [calculateZoneMetrics, hf]

/-- C6 witness: the all-zero metrics on absent data, and the 0.85
default on a roof whose only segment is pitched 40 degrees while the
zone is pitched 30. -/
theorem zoneMetrics_defaults_witness :
    calculateZoneMetrics none 100 30 =
      { usableArea := 0, numberOfPanels := 0, peakPower := 0,
        estimatedEnergy := 0, efficiencyFactor := 0 } ∧
    (calculateZoneMetrics (some ⟨100, 5000, 1000, 400, [⟨40, 180, ⟨50, []⟩⟩]⟩)
      100 30).efficiencyFactor = 85/100 := by
  refine ⟨zoneMetrics_defaults.1 100 30, ?_⟩
  refine zoneMetrics_defaults.2 ⟨100, 5000, 1000, 400, [⟨40, 180, ⟨50, []⟩⟩]⟩
    100 30 ?_
  intro s hs
  simp only [List.mem_singleton] at hs
  subst hs
  norm_num

/-- C8: `getCurrentElectricityRate` with a resolved country code that is
absent from the static table (here the code XX): when the fetch itself
throws, the catch block returns `FALLBACK_RATES.XX`, which is
JavaScript `undefined` (`none`), not the France fallback; the claim's
promised behaviour does hold on the HTTP-error branch, which appends
`|| FALLBACK_RATES.FR` and yields 0.2170. -/
theorem electricityRate_xx_bug :
    getCurrentElectricityRate ⟨some "XX", FetchOutcome.throwsError⟩ = none ∧
    getCurrentElectricityRate ⟨some "XX", FetchOutcome.httpError⟩ =
      some (217/1000) :=
  ⟨rfl, rfl⟩

/-- C9: `cleanup`, from any drawing state, empties the main-polygon
vertex list, the completed holes and the current hole buffer, resets the
history to empty with index -1, and notifies the collaborators with the
all-zero technical-info object and a null (`none`) area. -/
theorem cleanup_resets (s : DrawingState) :
    (cleanup s).1.drawnPoints = [] ∧ (cleanup s).1.holes = [] ∧
    (cleanup s).1.currentHole = [] ∧ (cleanup s).1.polygons = [] ∧
    (cleanup s).1.history = [] ∧ (cleanup s).1.histIndex = -1 ∧
    (cleanup s).2.1.area = 0 ∧ (cleanup s).2.1.usableArea = 0 ∧
    (cleanup s).2.1.numberOfPanels = 0 ∧ (cleanup s).2.1.peakPower = 0 ∧
    (cleanup s).2.1.estimatedEnergy = 0 ∧ (cleanup s).2.1.avgPitch = 0 ∧
    (cleanup s).2.1.reventeInfo = ⟨0, 0, 0⟩ ∧
    (cleanup s).2.1.autoconsoInfo = ⟨0, 0, 0⟩ ∧
    (cleanup s).2.1.installationCost = 0 ∧
    (cleanup s).2.1.maintenanceCost = 0 ∧
    (cleanup s).2.2 = none :=
  ⟨rfl, rfl, rfl, rfl, rfl, rfl, rfl, rfl, rfl, rfl, rfl, rfl, rfl, rfl,
   rfl, rfl, rfl⟩

/-- C10: with no drawn polygons, `updateTotalMetrics` falls back to the
building data: the published area is `maxArrayAreaMeters2` (area ratio
exactly 1), the published energy is exactly `maxArrayAnnualEnergyKwh`,
and the average pitch is the first roof segment's pitch. -/
theorem updateTotalMetrics_building_fallback (sp : SolarPotential)
    (price : ℚ) (hA : 0 < sp.maxArrayAreaMeters2)
    (hE : 0 ≤ sp.maxArrayAnnualEnergyKwh)
    (hseg : sp.roofSegmentStats ≠ []) :
    updateTotalMetrics (some sp) price [] ≠ none ∧
    ((updateTotalMetrics (some sp) price []).getD default).area =
      sp.maxArrayAreaMeters2 ∧
    ((updateTotalMetrics (some sp) price []).getD default).area /
      sp.maxArrayAreaMeters2 = 1 ∧
    ((updateTotalMetrics (some sp) price []).getD default).estimatedEnergy =
      sp.maxArrayAnnualEnergyKwh ∧
    ((updateTotalMetrics (some sp) price []).getD default).avgPitch =
      firstSegmentPitch sp.roofSegmentStats := by
  have hAne : sp.maxArrayAreaMeters2 ≠ 0 := ne_of_gt hA
  unfold updateTotalMetrics
  simp only [ne_eq, not_true_eq_false, if_false, Option.getD_some,
    Option.some_ne_none, not_false_eq_true, true_and]
  refine ⟨?_, ?_, ?_⟩
  · exact div_self hAne
  · show energyFromArea sp sp.maxArrayAreaMeters2 = sp.maxArrayAnnualEnergyKwh
    rw [energyFromArea, div_self hAne, mul_one, max_eq_right hE]
  · show (if 0 < sp.maxArrayAreaMeters2 then
        firstSegmentPitch sp.roofSegmentStats * sp.maxArrayAreaMeters2 /
          sp.maxArrayAreaMeters2
      else 0) = firstSegmentPitch sp.roofSegmentStats
    rw [if_pos hA, mul_div_cancel_right₀ _ hAne]

/-- C10 witness: the building-data fallback evaluated on a concrete
roof (100 m2 vendor max array, 5000 kWh vendor max energy, one segment
pitched 30 degrees). -/
theorem updateTotalMetrics_building_fallback_witness :
    (0:ℚ) < 100 ∧ (0:ℚ) ≤ 5000 ∧
    ([⟨30, 180, ⟨50, []⟩⟩] : List RoofSegment) ≠ [] ∧
    (updateTotalMetrics (some ⟨100, 5000, 1000, 400, [⟨30, 180, ⟨50, []⟩⟩]⟩)
        (1/5) [] ≠ none ∧
      ((updateTotalMetrics (some ⟨100, 5000, 1000, 400, [⟨30, 180, ⟨50, []⟩⟩]⟩)
        (1/5) []).getD default).area = 100 ∧
      ((updateTotalMetrics (some ⟨100, 5000, 1000, 400, [⟨30, 180, ⟨50, []⟩⟩]⟩)
        (1/5) []).getD default).area / 100 = 1 ∧
      ((updateTotalMetrics (some ⟨100, 5000, 1000, 400, [⟨30, 180, ⟨50, []⟩⟩]⟩)
        (1/5) []).getD default).estimatedEnergy = 5000 ∧
      ((updateTotalMetrics (some ⟨100, 5000, 1000, 400, [⟨30, 180, ⟨50, []⟩⟩]⟩)
        (1/5) []).getD default).avgPitch = 30) := by
  refine ⟨by norm_num, by norm_num, by simp, ?_⟩
  exact updateTotalMetrics_building_fallback
    ⟨100, 5000, 1000, 400, [⟨30, 180, ⟨50, []⟩⟩]⟩ (1/5)
    (by norm_num) (by norm_num) (by simp)

/-- C7, counterexample: in `updateTotalMetrics` of `Map.tsx`, a
configuration whose resale revenue (6) is below the maintenance cost
(416) has net revenue 0, and the published scenario payback is 0, not
the claimed 25-year analysis horizon. -/
theorem scenarioRoi_zero_counterexample :
    ((updateTotalMetrics (some ⟨100, 10, 1000, 400, [⟨30, 180, ⟨50, []⟩⟩]⟩)
      1 []).getD default).reventeInfo.revenusNets = 0 ∧
    ((updateTotalMetrics (some ⟨100, 10, 1000, 400, [⟨30, 180, ⟨50, []⟩⟩]⟩)
      1 []).getD default).reventeInfo.roi = 0 ∧
    (0 : ℚ) ≠ 25 := by
  refine ⟨?_, ?_, by norm_num⟩ <;>
    norm_num [updateTotalMetrics, energyFromArea, scenarioRoi,
      firstSegmentPitch, max_def]

/-- C7, amended: inside `calculateFinancials` the simple payback period
is the installation cost after incentives divided by the net yearly
revenue when that net revenue is positive, and the 25-year analysis
horizon otherwise; but the per-scenario payback published by
`updateTotalMetrics` is 0, not the 25-year ceiling, when the net revenue
is not positive. -/
theorem simplePayback_amended :
    (∀ installCost maintenance revenue : ℚ, 0 < revenue - maintenance →
      simplePaybackYears installCost maintenance revenue =
        installCost / (revenue - maintenance)) ∧
    (∀ installCost maintenance revenue : ℚ, ¬ 0 < revenue - maintenance →
      simplePaybackYears installCost maintenance revenue = 25) ∧
    (∀ finalCost revenusNets : ℚ, ¬ 0 < revenusNets →
      scenarioRoi finalCost revenusNets = 0) := by
  refine ⟨?_, ?_, ?_⟩ <;> intros <;>
    simp [simplePaybackYears, scenarioRoi, *]

/-- C7 witness: payback 10 years for cost 1000 against net revenue 100;
the 25-year ceiling for a negative net revenue; payback 0 in the map's
scenario when the net revenue is 0. -/
theorem simplePayback_amended_witness :
    (0:ℚ) < 110 - 10 ∧
    simplePaybackYears 1000 10 110 = 1000 / (110 - 10) ∧
    ¬ (0:ℚ) < 40 - 50 ∧
    simplePaybackYears 1000 50 40 = 25 ∧
    ¬ (0:ℚ) < 0 ∧
    scenarioRoi 2550 0 = 0 :=
  ⟨by norm_num, simplePayback_amended.1 1000 10 110 (by norm_num),
   by norm_num, simplePayback_amended.2.1 1000 50 40 (by norm_num),
   by norm_num, simplePayback_amended.2.2 2550 0 (by norm_num)⟩

/-- C3, counterexample: with the vendor reporting a 100 m2 maximum array
and 1000 kWh maximum annual energy, a drawn area of 200 m2 makes
`updateTotalMetrics`'s energy estimate 2000 kWh, exceeding the vendor's
reported maximum — the claimed upper bound fails. -/
theorem estimatedEnergy_bound_counterexample :
    energyFromArea ⟨100, 1000, 1500, 400, []⟩ 200 = 2000 ∧
    ¬ energyFromArea ⟨100, 1000, 1500, 400, []⟩ 200 ≤
      (⟨100, 1000, 1500, 400, []⟩ : SolarPotential).maxArrayAnnualEnergyKwh := by
  have h : energyFromArea ⟨100, 1000, 1500, 400, []⟩ 200 = 2000 := by
    norm_num [energyFromArea, max_def]
  refine ⟨h, ?_⟩
  rw [h]
  norm_num

/-- C3, amended: the energy estimates are monotone nondecreasing in the
drawn area and in the peak power, and `updateTotalMetrics`'s estimate is
bounded by the vendor's `maxArrayAnnualEnergyKwh` when the drawn area
does not exceed `maxArrayAreaMeters2` (without that restriction the
bound fails, see the counterexample). `calculateZoneMetrics`'s estimate
is exactly `maxSunshineHoursPerYear * peakPower * efficiencyFactor`,
hence monotone in the peak power. -/
theorem estimatedEnergy_amended :
    (∀ (sp : SolarPotential) (a b : ℚ), a ≤ b →
      0 ≤ sp.maxArrayAnnualEnergyKwh → 0 < sp.maxArrayAreaMeters2 →
      energyFromArea sp a ≤ energyFromArea sp b) ∧
    (∀ (sp : SolarPotential) (a : ℚ),
      0 ≤ sp.maxArrayAnnualEnergyKwh → 0 < sp.maxArrayAreaMeters2 →
      a ≤ sp.maxArrayAreaMeters2 →
      energyFromArea sp a ≤ sp.maxArrayAnnualEnergyKwh) ∧
    (∀ (sp : SolarPotential) (a b pitch : ℚ), a ≤ b →
      0 ≤ sp.maxSunshineHoursPerYear →
      0 ≤ (calculateZoneMetrics (some sp) a pitch).efficiencyFactor →
      (calculateZoneMetrics (some sp) a pitch).peakPower ≤
        (calculateZoneMetrics (some sp) b pitch).peakPower ∧
      (calculateZoneMetrics (some sp) a pitch).estimatedEnergy ≤
        (calculateZoneMetrics (some sp) b pitch).estimatedEnergy) ∧
    (∀ (sp : SolarPotential) (a pitch : ℚ),
      (calculateZoneMetrics (some sp) a pitch).estimatedEnergy =
        sp.maxSunshineHoursPerYear *
          (calculateZoneMetrics (some sp) a pitch).peakPower *
          (calculateZoneMetrics (some sp) a pitch).efficiencyFactor) := by
  refine ⟨?_, ?_, ?_, ?_⟩
  · intro sp a b hab hE hA
    unfold energyFromArea
    refine max_le_max le_rfl ?_
    exact mul_le_mul_of_nonneg_left
      ((div_le_div_iff_of_pos_right hA).mpr hab) hE
  · intro sp a hE hA ha
    unfold energyFromArea
    refine max_le hE ?_
    calc sp.maxArrayAnnualEnergyKwh * (a / sp.maxArrayAreaMeters2)
        ≤ sp.maxArrayAnnualEnergyKwh * 1 :=
          mul_le_mul_of_nonneg_left ((div_le_one hA).mpr ha) hE
      _ = sp.maxArrayAnnualEnergyKwh := mul_one _
  · intro sp a b pitch hab hS heff
    have hfloor : (⌊a * (9/10) / (17/10 * 1)⌋ : ℤ) ≤
        ⌊b * (9/10) / (17/10 * 1)⌋ := by
      apply Int.floor_mono
      gcongr
    have hpeak : (calculateZoneMetrics (some sp) a pitch).peakPower ≤
        (calculateZoneMetrics (some sp) b pitch).peakPower := by
      show (⌊a * (9/10) / (17/10 * 1)⌋ : ℚ) * 400 / 1000 ≤
        (⌊b * (9/10) / (17/10 * 1)⌋ : ℚ) * 400 / 1000
      gcongr
    refine ⟨hpeak, ?_⟩
    have heq : (calculateZoneMetrics (some sp) a pitch).efficiencyFactor =
        (calculateZoneMetrics (some sp) b pitch).efficiencyFactor := rfl
    show sp.maxSunshineHoursPerYear *
        (calculateZoneMetrics (some sp) a pitch).peakPower *
        (calculateZoneMetrics (some sp) a pitch).efficiencyFactor ≤
      sp.maxSunshineHoursPerYear *
        (calculateZoneMetrics (some sp) b pitch).peakPower *
        (calculateZoneMetrics (some sp) b pitch).efficiencyFactor
    rw [← heq]
    exact mul_le_mul_of_nonneg_right
      (mul_le_mul_of_nonneg_left hpeak hS) heff
  · intro sp a pitch
    rfl

/-- C3 witness: the monotonicity and the conditional bound evaluated on
a concrete roof (vendor max 100 m2 / 5000 kWh, no roof segments, so the
efficiency factor is the 0.85 default). -/
theorem estimatedEnergy_amended_witness :
    (50:ℚ) ≤ 100 ∧
    (0:ℚ) ≤ 5000 ∧ (0:ℚ) < 100 ∧
    energyFromArea ⟨100, 5000, 1500, 400, []⟩ 50 ≤
      energyFromArea ⟨100, 5000, 1500, 400, []⟩ 100 ∧
    energyFromArea ⟨100, 5000, 1500, 400, []⟩ 50 ≤ 5000 ∧
    (0:ℚ) ≤ 1500 ∧
    (0:ℚ) ≤ (calculateZoneMetrics (some ⟨100, 5000, 1500, 400, []⟩)
      50 30).efficiencyFactor ∧
    (calculateZoneMetrics (some ⟨100, 5000, 1500, 400, []⟩)
      50 30).estimatedEnergy ≤
    (calculateZoneMetrics (some ⟨100, 5000, 1500, 400, []⟩)
      100 30).estimatedEnergy := by
  have heff : (0:ℚ) ≤ (calculateZoneMetrics
      (some ⟨100, 5000, 1500, 400, []⟩) 50 30).efficiencyFactor := by
    show (0:ℚ) ≤ 85/100
    norm_num
  refine ⟨by norm_num, by norm_num, by norm_num, ?_, ?_, by norm_num, heff, ?_⟩
  · exact estimatedEnergy_amended.1 ⟨100, 5000, 1500, 400, []⟩ 50 100
      (by norm_num) (by norm_num) (by norm_num)
  · exact estimatedEnergy_amended.2.1 ⟨100, 5000, 1500, 400, []⟩ 50
      (by norm_num) (by norm_num) (by norm_num)
  · exact (estimatedEnergy_amended.2.2.1 ⟨100, 5000, 1500, 400, []⟩ 50 100 30
      (by norm_num) (by norm_num) heff).2

/-- C5: in the main-polygon drawing branch, when at least 3 vertices
exist and the click lands within 2 meters of vertex 0, the click runs
`completePolygon` instead of adding a vertex: the clicked point is
discarded (the result does not depend on it), the drawn-points buffer is
emptied, and the completed ring is closed at vertex 0 — vertex 0 is
appended as the last point exactly when the last point does not already
equal it. -/
theorem snapClose_closes_polygon (dist : Pt → Pt → ℚ)
    (areaFn : List Pt → ℚ) (segs : List RoofSegment) (s : DrawingState)
    (p : Pt) (h3 : 3 ≤ s.drawnPoints.length)
    (hd : dist s.drawnPoints.headI p < 2) :
    clickMeasurement dist areaFn segs s p = completePolygon areaFn segs s ∧
    (clickMeasurement dist areaFn segs s p).drawnPoints = [] ∧
    (clickMeasurement dist areaFn segs s p).polygons =
      s.polygons ++ [⟨closeRing s.drawnPoints,
        areaFn (closeRing s.drawnPoints), firstSegmentPitch segs⟩] ∧
    closeRing s.drawnPoints =
      (if s.drawnPoints.headI = s.drawnPoints.getLastD s.drawnPoints.headI
       then s.drawnPoints
       else s.drawnPoints ++ [s.drawnPoints.headI]) := by
  have h1 : clickMeasurement dist areaFn segs s p =
      completePolygon areaFn segs s := by
    unfold clickMeasurement
    rw [if_pos ⟨by omega, hd⟩]
  have h2 : completePolygon areaFn segs s =
      { s with polygons := s.polygons ++
                 [⟨closeRing s.drawnPoints,
                   areaFn (closeRing s.drawnPoints),
                   firstSegmentPitch segs⟩],
               drawnPoints := [] } := by
    unfold completePolygon
    rw [if_neg (by omega)]
  refine ⟨h1, by rw [h1, h2], by rw [h1, h2], ?_⟩
  obtain ⟨a, l, hal⟩ : ∃ a l, s.drawnPoints = a :: l := by
    cases hsd : s.drawnPoints with
    | nil => rw [hsd] at h3; simp at h3
    | cons a l => exact ⟨a, l, rfl⟩
  rw [hal]
  have hne : (a :: l) ≠ ([] : List Pt) := List.cons_ne_nil a l
  simp only [closeRing, List.head?_cons, List.getLast?_eq_getLast _ hne,
    List.headI_cons, List.getLastD_eq_getLast?, Option.getD_some]

/-- C5 witness: the snap-to-close behaviour on the concrete triangle
state, clicking back near vertex 0. -/
theorem snapClose_closes_polygon_witness :
    3 ≤ snapState.drawnPoints.length ∧
    zeroDist snapState.drawnPoints.headI ((0:ℚ),(0:ℚ)) < 2 ∧
    (clickMeasurement zeroDist constArea12 [] snapState ((0:ℚ),(0:ℚ)) =
      completePolygon constArea12 [] snapState ∧
     (clickMeasurement zeroDist constArea12 [] snapState
       ((0:ℚ),(0:ℚ))).drawnPoints = [] ∧
     (clickMeasurement zeroDist constArea12 [] snapState
       ((0:ℚ),(0:ℚ))).polygons =
       snapState.polygons ++ [⟨closeRing snapState.drawnPoints,
         constArea12 (closeRing snapState.drawnPoints),
         firstSegmentPitch []⟩] ∧
     closeRing snapState.drawnPoints =
       (if snapState.drawnPoints.headI =
           snapState.drawnPoints.getLastD snapState.drawnPoints.headI
        then snapState.drawnPoints
        else snapState.drawnPoints ++ [snapState.drawnPoints.headI])) := by
  have h3 : 3 ≤ snapState.drawnPoints.length := by simp [snapState]
  have hd : zeroDist snapState.drawnPoints.headI ((0:ℚ),(0:ℚ)) < 2 := by
    norm_num [zeroDist]
  exact ⟨h3, hd, snapClose_closes_polygon zeroDist constArea12 [] snapState
    ((0:ℚ),(0:ℚ)) h3 hd⟩

/-- A vertex-addition click on an aligned state (history pointer at the
last snapshot, as after any pure sequence of clicks) appends the snapshot
without truncating anything. -/
theorem addVertexClick_aligned (s : DrawingState)
    (h : s.histIndex = (s.history.length : ℤ) - 1) (p : Pt) :
    addVertexClick s p =
      { s with drawnPoints := s.drawnPoints ++ [p],
               history := s.history ++ [s.drawnPoints ++ [p]],
               histIndex := (s.history.length : ℤ) } := by
  cases s with
  | mk pg dp hist hidx hl ch =>
    simp only [addVertexClick, addToHistory, DrawingState.mk.injEq,
      true_and, and_true] at h ⊢
    refine ⟨?_, by omega⟩
    rw [show (hidx + 1).toNat = hist.length by omega, List.take_length]

/-- The state after a sequence of vertex-addition clicks from an aligned
state: the points are appended, the history grows by the successive
nonempty prefixes, and the pointer sits on the last snapshot. -/
theorem addClicks_spec (ps : List Pt) : ∀ (s : DrawingState),
    s.histIndex = (s.history.length : ℤ) - 1 →
    addClicks s ps =
      { s with
        drawnPoints := s.drawnPoints ++ ps,
        history := s.history ++
          (List.range ps.length).map (fun i => s.drawnPoints ++ ps.take (i+1)),
        histIndex := (s.history.length : ℤ) + ps.length - 1 } := by
  induction ps with
  | nil =>
    intro s h
    cases s with
    | mk pg dp hist hidx hl ch =>
      simp only [addClicks, List.foldl_nil, List.range_zero, List.map_nil,
        List.append_nil, List.length_nil, Nat.cast_zero,
        DrawingState.mk.injEq, true_and, and_true] at h ⊢
      omega
  | cons p ps ih =>
    intro s h
    have step : addClicks s (p :: ps) = addClicks (addVertexClick s p) ps :=
      rfl
    rw [step, addVertexClick_aligned s h p,
      ih _ (by simp [List.length_append])]
    cases s with
    | mk pg dp hist hidx hl ch =>
      simp only [DrawingState.mk.injEq, true_and, and_true]
      refine ⟨by simp, ?_, by simp; omega⟩
      simp only [List.length_cons]
      rw [List.range_succ_eq_map, List.map_cons, List.map_map]
      simp only [List.take_succ_cons, List.take_zero, Function.comp_def]
      rw [List.append_assoc]
      simp [List.append_assoc]

/-- Iterating `handleUndo` `k` times from a consistent state walks the
pointer back `k` snapshots, stopping at snapshot 0 (the history never
holds the empty drawing, so undo can never reach it). -/
theorem handleUndo_iterate (k : ℕ) : ∀ (s : DrawingState),
    0 ≤ s.histIndex → s.histIndex < (s.history.length : ℤ) →
    s.drawnPoints = s.history.getD s.histIndex.toNat [] →
    handleUndo^[k] s =
      { s with histIndex := ((s.histIndex.toNat - k : ℕ) : ℤ),
               drawnPoints := s.history.getD (s.histIndex.toNat - k) [] } := by
  induction k with
  | zero =>
    intro s h0 hlt hd
    simp only [Function.iterate_zero, id_eq]
    cases s with
    | mk pg dp hist hidx hl ch =>
      simp only at h0 hlt hd
      simp only [DrawingState.mk.injEq, true_and, and_true]
      exact ⟨by simpa using hd, by omega⟩
  | succ k ih =>
    intro s h0 hlt hd
    rw [Function.iterate_succ_apply]
    by_cases hpos : 0 < s.histIndex
    · have hstep : handleUndo s =
          { s with histIndex := s.histIndex - 1,
                   drawnPoints := s.history.getD (s.histIndex - 1).toNat [] } := by
        unfold handleUndo
        rw [if_pos hpos]
      rw [hstep, ih _ (by simp; omega) (by simp; omega) (by simp)]
      cases s with
      | mk pg dp hist hidx hl ch =>
        simp only at h0 hlt hd hpos
        simp only [DrawingState.mk.injEq, true_and, and_true]
        constructor
        · rw [show (hidx - 1).toNat - k = hidx.toNat - (k + 1) by omega]
        · omega
    · have hstep : handleUndo s = s := by
        unfold handleUndo
        rw [if_neg hpos]
      rw [hstep, ih s h0 hlt hd]
      cases s with
      | mk pg dp hist hidx hl ch =>
        simp only at h0 hlt hd hpos
        simp only [DrawingState.mk.injEq, true_and, and_true]
        constructor
        · rw [show hidx.toNat - k = hidx.toNat - (k + 1) by omega]
        · omega

/-- Iterating `handleRedo` `k` times from a consistent state walks the
pointer forward `k` snapshots, stopping at the last one. -/
theorem handleRedo_iterate (k : ℕ) : ∀ (s : DrawingState),
    0 ≤ s.histIndex → s.histIndex < (s.history.length : ℤ) →
    s.drawnPoints = s.history.getD s.histIndex.toNat [] →
    handleRedo^[k] s =
      { s with
        histIndex := ((min (s.history.length - 1) (s.histIndex.toNat + k) : ℕ) : ℤ),
        drawnPoints :=
          s.history.getD (min (s.history.length - 1) (s.histIndex.toNat + k)) [] } := by
  induction k with
  | zero =>
    intro s h0 hlt hd
    simp only [Function.iterate_zero, id_eq]
    cases s with
    | mk pg dp hist hidx hl ch =>
      simp only at h0 hlt hd
      simp only [DrawingState.mk.injEq, true_and, and_true]
      constructor
      · rw [show min (hist.length - 1) (hidx.toNat + 0) = hidx.toNat by omega]
        simpa using hd
      · omega
  | succ k ih =>
    intro s h0 hlt hd
    rw [Function.iterate_succ_apply]
    by_cases hlast : s.histIndex < (s.history.length : ℤ) - 1
    · have hstep : handleRedo s =
          { s with histIndex := s.histIndex + 1,
                   drawnPoints := s.history.getD (s.histIndex + 1).toNat [] } := by
        unfold handleRedo
        rw [if_pos hlast]
      rw [hstep, ih _ (by simp; omega) (by simp; omega) (by simp)]
      cases s with
      | mk pg dp hist hidx hl ch =>
        simp only at h0 hlt hd hlast
        simp only [DrawingState.mk.injEq, true_and, and_true]
        constructor
        · rw [show min (hist.length - 1) ((hidx + 1).toNat + k) =
              min (hist.length - 1) (hidx.toNat + (k + 1)) by omega]
        · omega
    · have hstep : handleRedo s = s := by
        unfold handleRedo
        rw [if_neg hlast]
      rw [hstep, ih s h0 hlt hd]
      cases s with
      | mk pg dp hist hidx hl ch =>
        simp only at h0 hlt hd hlast
        simp only [DrawingState.mk.injEq, true_and, and_true]
        constructor
        · rw [show min (hist.length - 1) (hidx.toNat + k) =
              min (hist.length - 1) (hidx.toNat + (k + 1)) by omega]
        · omega

/-- Reading the `i`-th snapshot of the prefix history gives the first
`i+1` clicked points. -/
theorem prefixes_getD (ps : List Pt) (i : ℕ) (h : i < ps.length) :
    ((List.range ps.length).map (fun j => ps.take (j+1))).getD i [] =
      ps.take (i+1) := by
  rw [List.getD_eq_getElem?_getD, List.getElem?_map, List.getElem?_range h]
  rfl

/-- The normalized state after clicking the vertices `ps` in an empty
session: the drawn points are `ps`, the history holds the nonempty
prefixes of `ps`, and the pointer sits on the last snapshot. -/
theorem addClicks_from_init (ps : List Pt) :
    addClicks initDrawingState ps =
      { polygons := [], drawnPoints := ps,
        history := (List.range ps.length).map (fun i => ps.take (i+1)),
        histIndex := (ps.length : ℤ) - 1,
        holes := [], currentHole := [] } := by
  rw [addClicks_spec ps initDrawingState (by simp [initDrawingState])]
  simp [initDrawingState]

/-- C1, counterexample: a single vertex-addition click followed by a
single undo leaves the drawn-points list at the one-point snapshot, not
at the empty list — the very first snapshot pushed into the history is
the one-point list, and `handleUndo` refuses to move below index 0. -/
theorem undo_not_empty_counterexample :
    (handleUndo^[1] (addClicks initDrawingState
      [((0:ℚ),(0:ℚ))])).drawnPoints = [((0:ℚ),(0:ℚ))] ∧
    (handleUndo^[1] (addClicks initDrawingState
      [((0:ℚ),(0:ℚ))])).drawnPoints ≠ [] := by
  have h1 : (handleUndo^[1] (addClicks initDrawingState
      [((0:ℚ),(0:ℚ))])).drawnPoints = [((0:ℚ),(0:ℚ))] := by
    rw [addClicks_from_init]
    simp [handleUndo]
  exact ⟨h1, by rw [h1]; simp⟩

/-- C1, amended: after N vertex-addition clicks in an empty session,
N undos restore the drawn-points list only to the first one-point
snapshot `ps.take 1` (never the empty list: the Nth undo is a no-op at
index 0), and N redos after that restore the original N-vertex list
exactly, same points in the same order. -/
theorem undoRedo_roundtrip_amended (ps : List Pt) (h : ps ≠ []) :
    (handleUndo^[ps.length] (addClicks initDrawingState ps)).drawnPoints =
      ps.take 1 ∧
    (handleRedo^[ps.length]
      (handleUndo^[ps.length] (addClicks initDrawingState ps))).drawnPoints =
      ps := by
  have hn : 0 < ps.length := List.length_pos.mpr h
  have hU : handleUndo^[ps.length] (addClicks initDrawingState ps) =
      { polygons := [], drawnPoints := ps.take 1,
        history := (List.range ps.length).map (fun i => ps.take (i+1)),
        histIndex := 0, holes := [], currentHole := [] } := by
    rw [addClicks_from_init]
    rw [handleUndo_iterate ps.length _ (by simp; omega)
      (by simp; try omega)
      (by
        simp only
        rw [show (((ps.length : ℤ) - 1)).toNat = ps.length - 1 by omega,
          prefixes_getD ps (ps.length - 1) (by omega),
          show ps.length - 1 + 1 = ps.length by omega, List.take_length])]
    simp only [DrawingState.mk.injEq, true_and, and_true]
    constructor
    · rw [show (((ps.length : ℤ) - 1)).toNat - ps.length = 0 by omega,
        prefixes_getD ps 0 hn]
    · omega
  have hR : handleRedo^[ps.length]
      (handleUndo^[ps.length] (addClicks initDrawingState ps)) =
      { polygons := [], drawnPoints := ps,
        history := (List.range ps.length).map (fun i => ps.take (i+1)),
        histIndex := (ps.length : ℤ) - 1,
        holes := [], currentHole := [] } := by
    rw [hU]
    rw [handleRedo_iterate ps.length _ (by simp)
      (by simp; omega)
      (by
        simp only [Int.toNat_zero]
        rw [prefixes_getD ps 0 hn])]
    simp only [DrawingState.mk.injEq, true_and, and_true]
    constructor
    · rw [show min ((((List.range ps.length).map
          (fun i => ps.take (i+1))).length) - 1) ((0:ℤ).toNat + ps.length) =
          ps.length - 1 by simp; try omega,
        prefixes_getD ps (ps.length - 1) (by omega),
        show ps.length - 1 + 1 = ps.length by omega, List.take_length]
    · simp
      omega
  exact ⟨by rw [hU], by rw [hR]⟩

/-- C1 witness: the round trip on two concrete clicks — two undos leave
the one-point snapshot, two redos restore both points. -/
theorem undoRedo_roundtrip_witness :
    ([((0:ℚ),(0:ℚ)), ((1:ℚ),(1:ℚ))] : List Pt) ≠ [] ∧
    (handleUndo^[2] (addClicks initDrawingState
      [((0:ℚ),(0:ℚ)), ((1:ℚ),(1:ℚ))])).drawnPoints = [((0:ℚ),(0:ℚ))] ∧
    (handleRedo^[2] (handleUndo^[2] (addClicks initDrawingState
      [((0:ℚ),(0:ℚ)), ((1:ℚ),(1:ℚ))]))).drawnPoints =
      [((0:ℚ),(0:ℚ)), ((1:ℚ),(1:ℚ))] := by
  have h := undoRedo_roundtrip_amended [((0:ℚ),(0:ℚ)), ((1:ℚ),(1:ℚ))]
    (by simp)
  exact ⟨by simp, h.1, h.2⟩

end SolarPanel
